import Mathlib

/-!
Verification of the QENEX EPP registry platform (Python sources) against its
natural-language specification.  Each Python handler that the claims touch is
shallowly embedded as an executable Lean function; machine integers become
`Nat` with explicit bounds, database rows become structures, database tables
become lists, and the nondeterministic inputs of the handlers (current time,
generated passphrases, session contents) become explicit parameters.
-/

/- ------------------------------------------------------------------ -/
/- Frame codec (epp_domain_commands.create_success_response lines 541-558,
   epp_server.handle_client lines 215-231).                            -/
/- ------------------------------------------------------------------ -/

/-- Big-endian 4-byte encoding of a natural number, as produced by Python's
`n.to_bytes(4, byteorder='big')` when `n < 2^32` (it raises `OverflowError`
otherwise; the encoder below carries that bound as a hypothesis wherever it
matters). -/
def toBE32 (n : Nat) : List Nat :=
  [n / 2 ^ 24 % 256, n / 2 ^ 16 % 256, n / 2 ^ 8 % 256, n % 256]

/-- `int.from_bytes(b, byteorder='big')` on a 4-byte header, returning the
decoded length together with the rest of the stream; `none` when fewer than
four octets are available (the server breaks the session on a short header). -/
def fromBE32 : List Nat → Option (Nat × List Nat)
  | a :: b :: c :: d :: rest => some (((a * 256 + b) * 256 + c) * 256 + d, rest)
  | _ => none

/-- The frame writer: `frame_length = len(response_bytes) + 4` followed by
`frame_length.to_bytes(4, 'big') + response_bytes`
(epp_domain_commands.py lines 556-558, identically epp_server.py 157-161). -/
def encodeFrame (payload : List Nat) : List Nat :=
  toBE32 (payload.length + 4) ++ payload

/-- The frame reader of `handle_client` (epp_server.py lines 216-226): read a
4-octet header, decode `frame_length`, read `frame_length - 4` payload octets;
an empty payload read (`if not command_data: break`) drops the session, which
the decoder reports as `none`. -/
def decodeFrame (stream : List Nat) : Option (List Nat) :=
  match fromBE32 stream with
  | none => none
  | some (frameLength, rest) =>
    let commandData := rest.take (frameLength - 4)
    if commandData.isEmpty then none else some commandData

/- ------------------------------------------------------------------ -/
/- Registry store: rows of the tables the handlers touch.              -/
/- ------------------------------------------------------------------ -/

/-- Python's `str.lower()` on the character list of a string (executable,
unlike `String.toLower`, whose position recursion the kernel cannot reduce;
on the ASCII identifiers of this protocol the two agree). -/
def strLower (s : String) : String :=
  String.mk (s.data.map Char.toLower)

/-- A row of the `domains` table, with the columns read or written by the
domain handlers.  Timestamps are seconds since the epoch (`datetime.utcnow`
values); nullable columns are `Option`. -/
structure DomainRow where
  name : String
  registrarId : String
  creationDate : Nat
  expirationDate : Nat
  lastUpdate : Option Nat
  status : List String
  authCode : Option String
  registrantId : Option String
  adminContactId : Option String
  techContactId : Option String
  billingContactId : Option String
  deriving Repr, DecidableEq

/-- A row of the `contacts` table (columns of the INSERT in
`handle_contact_create`). -/
structure ContactRow where
  handle : String
  registrarId : String
  name : String
  organization : Option String
  street1 : Option String
  street2 : Option String
  street3 : Option String
  city : String
  stateProvince : Option String
  postalCode : String
  countryCode : String
  phone : String
  fax : Option String
  email : String
  createdDate : Nat
  status : List String
  deriving Repr, DecidableEq

/-- A row of the `transfers` table (columns of the INSERT in
`handle_domain_transfer`); the domain foreign key is modelled by the unique
domain name, and `request_date` (a database default) by the time at which the
row was inserted. -/
structure TransferRow where
  domainName : String
  oldRegistrar : String
  newRegistrar : Option String
  transferStatus : String
  authCode : Option String
  requestDate : Nat
  deriving Repr, DecidableEq

/-- The registry store: the tables used by the claims.  `nameservers` and
`domainNameservers` are the tables of the domain handlers; `hosts` is the
separate table consulted by the host handlers (only its `name` column matters
to the claims). -/
structure Store where
  domains : List DomainRow
  contacts : List ContactRow
  nameservers : List String
  domainNameservers : List (String × String)
  hosts : List String
  transfers : List TransferRow
  deriving Repr, DecidableEq

/-- A session record as populated by `handle_login`; `clID` is `none` when
the key is absent (the handlers use `session.get('clID')`). -/
structure Session where
  clID : Option String
  deriving Repr, DecidableEq

/-- An EPP `<result>`: code and message (`create_success_response` /
`create_error_response`). -/
structure EppResult where
  code : Nat
  msg : String
  deriving Repr, DecidableEq

/-- `SELECT ... FROM domains WHERE domain_name = %s` (name is the unique
key). -/
def lookupDomain (st : Store) (name : String) : Option DomainRow :=
  st.domains.find? (fun d => d.name == name)

/-- `SELECT contact_handle FROM contacts WHERE contact_handle = %s`. -/
def lookupContact (st : Store) (handle : String) : Option ContactRow :=
  st.contacts.find? (fun c => c.handle == handle)

/-- `UPDATE domains SET ... WHERE domain_id = %s`, modelled through the
unique name. -/
def updateDomain (st : Store) (name : String) (f : DomainRow → DomainRow) :
    Store :=
  { st with domains := st.domains.map (fun d => if d.name == name then f d else d) }

/- ------------------------------------------------------------------ -/
/- domain:create (epp_domain_commands.handle_domain_create, 134-230)   -/
/- ------------------------------------------------------------------ -/

/-- The fields `handle_domain_create` extracts from the XML: each `Option`
mirrors the presence of the corresponding element (`name`, `period`,
`registrant`, `pw`, and the list of `hostObj` texts). -/
structure DomainCreateReq where
  name : Option String
  period : Option Nat
  registrant : Option String
  authInfo : Option String
  nameservers : List String
  deriving Repr, DecidableEq

/-- Find-or-create a `nameservers` row and link it to the domain
(`handle_domain_create` lines 188-209). -/
def addNameserverLink (dname : String) (st : Store) (ns : String) : Store :=
  let st' := if st.nameservers.contains ns then st
             else { st with nameservers := st.nameservers ++ [ns] }
  { st' with domainNameservers := st'.domainNameservers ++ [(dname, ns)] }

/-- `handle_domain_create`: reject a missing name with 2003 and an existing
(lowercased) name with 2302; otherwise insert the domain with
`creation = utcnow`, `expiration = creation + period*365 days`, status
`['ok']`, the supplied or generated auth code, and the supplied registrant or
`'DEFAULT'`, then link the (lowercased) nameservers.  `now` is the value of
`datetime.utcnow()` in epoch seconds and `genAuth` the value of
`secrets.token_urlsafe(16)`. -/
def handle_domain_create (st : Store) (sess : Session) (now : Nat)
    (genAuth : String) (req : DomainCreateReq) : Store × EppResult :=
  match req.name with
  | none => (st, ⟨2003, "Required parameter missing"⟩)
  | some rawName =>
    let domainName := strLower rawName
    let period := req.period.getD 1
    let registrant := req.registrant.getD "DEFAULT"
    let authCode := req.authInfo.getD genAuth
    match lookupDomain st domainName with
    | some _ => (st, ⟨2302, "Object exists"⟩)
    | none =>
      let registrarId := sess.clID.getD "unknown"
      let creationDate := now
      let expirationDate := creationDate + period * 365 * 86400
      let row : DomainRow :=
        { name := domainName, registrarId := registrarId,
          creationDate := creationDate, expirationDate := expirationDate,
          lastUpdate := none, status := ["ok"], authCode := some authCode,
          registrantId := some registrant, adminContactId := none,
          techContactId := none, billingContactId := none }
      let st1 := { st with domains := st.domains ++ [row] }
      let st2 := (req.nameservers.map strLower).foldl
                   (addNameserverLink domainName) st1
      (st2, ⟨1000, "Command completed successfully"⟩)

/- ------------------------------------------------------------------ -/
/- domain:renew (epp_domain_commands.handle_domain_renew, 374-436)     -/
/- ------------------------------------------------------------------ -/

/-- The fields `handle_domain_renew` extracts: `name`, `curExpDate` and
`period`, each `Option` mirroring element presence. -/
structure DomainRenewReq where
  name : Option String
  curExpDate : Option String
  period : Option Nat
  deriving Repr, DecidableEq

/-- `handle_domain_renew`: 2003 when the name or curExpDate element is
missing, 2303 when the domain does not exist, 2201 when the caller is not
the sponsor; otherwise the stored expiration is advanced by
`period * 365` days and 1000 is returned.  Exactly as in the source, the
*value* of `curExpDate` is parsed but never compared with the stored
expiration date. -/
def handle_domain_renew (st : Store) (sess : Session) (now : Nat)
    (req : DomainRenewReq) : Store × EppResult :=
  match req.name, req.curExpDate with
  | none, _ => (st, ⟨2003, "Required parameter missing"⟩)
  | some _, none => (st, ⟨2003, "Required parameter missing"⟩)
  | some rawName, some _curExpDate =>
    let domainName := strLower rawName
    let period := req.period.getD 1
    match lookupDomain st domainName with
    | none => (st, ⟨2303, "Object does not exist"⟩)
    | some d =>
      if sess.clID == some d.registrarId then
        let newExpDate := d.expirationDate + period * 365 * 86400
        (updateDomain st domainName
           (fun r => { r with expirationDate := newExpDate,
                              lastUpdate := some now }),
         ⟨1000, "Command completed successfully"⟩)
      else (st, ⟨2201, "Authorization error"⟩)

/- ------------------------------------------------------------------ -/
/- contact:delete (epp_contact_commands.handle_contact_delete, 484-552)-/
/- ------------------------------------------------------------------ -/

/-- `SELECT COUNT(*) FROM domains WHERE registrant_id = %s OR
admin_contact_id = %s OR tech_contact_id = %s OR billing_contact_id = %s`. -/
def countReferencingDomains (st : Store) (handle : String) : Nat :=
  st.domains.countP (fun d =>
    d.registrantId == some handle || d.adminContactId == some handle ||
    d.techContactId == some handle || d.billingContactId == some handle)

/-- `handle_contact_delete`: 2003 without an id element, 2303 when the
handle is unknown, 2305 (with the reference count in the message, store
untouched) when any domain references the handle in any role column,
otherwise the row is deleted and 1000 returned. -/
def handle_contact_delete (st : Store) (reqId : Option String) :
    Store × EppResult :=
  match reqId with
  | none => (st, ⟨2003, "Required parameter missing: id"⟩)
  | some contactId =>
    match lookupContact st contactId with
    | none => (st, ⟨2303, "Object does not exist"⟩)
    | some _ =>
      let count := countReferencingDomains st contactId
      if count > 0 then
        (st, ⟨2305, "Object association prohibits operation (" ++
                Nat.repr count ++ " domains reference this contact)"⟩)
      else
        ({ st with contacts :=
             st.contacts.filter (fun c => !(c.handle == contactId)) },
         ⟨1000, "Command completed successfully"⟩)

/- ------------------------------------------------------------------ -/
/- host:check (epp_host_commands._validate_hostname 67-92,             -/
/- handle_host_check 124-200)                                          -/
/- ------------------------------------------------------------------ -/

/-- `[a-z0-9]` of the label regex. -/
def isLowerAlnum (c : Char) : Bool :=
  (decide ('a' ≤ c) && decide (c ≤ 'z')) ||
  (decide ('0' ≤ c) && decide (c ≤ '9'))

/-- `[a-z0-9-]` of the label regex. -/
def isLowerAlnumHyphen (c : Char) : Bool :=
  isLowerAlnum c || c == '-'

/-- A full-string match of `[a-z0-9]([a-z0-9-]{0,61}[a-z0-9])?`: one
alphanumeric character, optionally followed by up to 61 characters of
`[a-z0-9-]` and a final alphanumeric character. -/
def labelCoreOk (cs : List Char) : Bool :=
  match cs with
  | [] => false
  | c :: rest =>
    isLowerAlnum c &&
    (match rest.getLast? with
     | none => true
     | some lastc =>
       decide (rest.length ≤ 62) && rest.dropLast.all isLowerAlnumHyphen &&
       isLowerAlnum lastc)

/-- `re.match(r'^[a-z0-9]([a-z0-9-]{0,61}[a-z0-9])?$', label)` exactly:
Python's `$` also matches just before one newline at the end of the string,
so a label may carry one trailing `'\n'` on top of the core pattern. -/
def labelOk (cs : List Char) : Bool :=
  labelCoreOk cs ||
  (match cs.getLast? with
   | some c => c == '\x0a' && labelCoreOk cs.dropLast
   | none => false)

/-- `str.split('.')` on a character list (Python semantics: the empty
string yields one empty field, separators at the edges yield empty
fields). -/
def splitOnDot : List Char → List (List Char)
  | [] => [[]]
  | c :: rest =>
    let r := splitOnDot rest
    if c == '.' then [] :: r
    else
      match r with
      | [] => [[c]]
      | a :: as => (c :: a) :: as

/-- `_validate_hostname` (epp_host_commands.py 67-92): nonempty, at most
255 characters, at least two dot-separated labels of the lowercased name,
and every label matches the label regex. -/
def validate_hostname (hostname : String) : Bool :=
  if hostname.data.isEmpty || hostname.data.length > 255 then false
  else
    if (splitOnDot (strLower hostname).data).length < 2 then false
    else (splitOnDot (strLower hostname).data).all labelOk

/-- The hostname form as the claim words it: labels of 1–63 characters
consisting of (lowercased) letters, digits and hyphens, with hyphens not at
label edges. -/
def labelSpecOk (cs : List Char) : Bool :=
  decide (1 ≤ cs.length) && decide (cs.length ≤ 63) &&
  cs.all isLowerAlnumHyphen &&
  (match cs.head? with | none => true | some c => !(c == '-')) &&
  (match cs.getLast? with | none => true | some c => !(c == '-'))

/-- A label as the code accepts it, worded declaratively: the claimed form,
or the claimed form with one trailing newline (Python's `$`). -/
def labelSpecNL (cs : List Char) : Bool :=
  labelSpecOk cs ||
  (match cs.getLast? with
   | some c => c == '\x0a' && labelSpecOk cs.dropLast
   | none => false)

/-- The hostname form exactly as the claim's parenthetical describes it:
at least two labels, each of the claimed label form. -/
def hostnameFormClaim (hostname : String) : Bool :=
  decide (2 ≤ (splitOnDot (strLower hostname).data).length) &&
  (splitOnDot (strLower hostname).data).all labelSpecOk

/-- The amended hostname form: the claim's parenthetical plus the trailing
newline artifact in each label. -/
def hostnameFormAmended (hostname : String) : Bool :=
  decide (2 ≤ (splitOnDot (strLower hostname).data).length) &&
  (splitOnDot (strLower hostname).data).all labelSpecNL

/-- A per-name entry of the host:check response. -/
structure HostCheckItem where
  name : String
  avail : String
  reason : Option String
  deriving Repr, DecidableEq

/-- One iteration of the loop of `handle_host_check` (epp_host_commands.py
147-168): invalid format first, then the existence check on the lowercased
name. -/
def hostCheckOne (hostsTable : List String) (name : String) : HostCheckItem :=
  if !(validate_hostname name) then
    ⟨name, "0", some "Invalid hostname format"⟩
  else if hostsTable.contains (strLower name) then
    ⟨name, "0", some "In use"⟩
  else
    ⟨name, "1", none⟩

/-- `handle_host_check` maps the per-name check over the requested names
(the empty-request 2003 path is outside the claims). -/
def handle_host_check (hostsTable : List String) (names : List String) :
    List HostCheckItem :=
  names.map (hostCheckOne hostsTable)

/- ------------------------------------------------------------------ -/
/- domain:info (epp_domain_commands.handle_domain_info, 68-132)        -/
/- ------------------------------------------------------------------ -/

/-- Python's `str.upper()` character-wise. -/
def strUpper (s : String) : String :=
  String.mk (s.data.map Char.toUpper)

/-- `name.upper().replace(".", "-")` (single-character replacement is a
character map). -/
def dotsToHyphens (s : String) : String :=
  String.mk (s.data.map (fun c => if c == '.' then '-' else c))

/-- `domain[i] if domain[i] else 'REDACTED'`: Python truthiness substitutes
`REDACTED` for NULL and for the empty string. -/
def orRedacted (v : Option String) : String :=
  match v with
  | some s => if s.data.isEmpty then "REDACTED" else s
  | none => "REDACTED"

/-- The semantic content of the `<domain:infData>` response built by
`handle_domain_info` (the XML string of lines 110-126, field by field). -/
structure DomainInfoData where
  name : String
  roid : String
  statuses : List String
  registrant : String
  adminContact : String
  techContact : String
  nameservers : List String
  clID : String
  crID : String
  crDate : Nat
  upDate : Nat
  exDate : Nat
  authInfoPw : String
  deriving Repr, DecidableEq

/-- Outcome of domain:info — an error result or the info data (info never
mutates the store). -/
inductive InfoOutcome where
  | err (r : EppResult)
  | ok (d : DomainInfoData)
  deriving Repr, DecidableEq

/-- `handle_domain_info`: 2003 without a name element, 2303 for an unknown
(lowercased) name; a NULL `last_update` makes `domain[4].isoformat()` raise,
which the handler's blanket `except` surfaces as 2400.  Otherwise the full
record — including the stored authorization passphrase, behind only a
NULL/empty-string `REDACTED` substitution — is returned to EVERY requester;
the session's identity is never consulted. -/
def handle_domain_info (st : Store) (sess : Session)
    (reqName : Option String) : InfoOutcome :=
  match reqName with
  | none => .err ⟨2003, "Required parameter missing"⟩
  | some rawName =>
    let domainName := strLower rawName
    match lookupDomain st domainName with
    | none => .err ⟨2303, "Object does not exist"⟩
    | some d =>
      match d.lastUpdate with
      | none => .err ⟨2400, "Command failed"⟩
      | some up =>
        .ok { name := d.name,
              roid := dotsToHyphens (strUpper d.name) ++ "-QENEX",
              statuses := d.status,
              registrant := orRedacted d.registrantId,
              adminContact := orRedacted d.adminContactId,
              techContact := orRedacted d.techContactId,
              nameservers := (st.domainNameservers.filter
                  (fun p => p.1 == domainName)).map (fun p => p.2),
              clID := d.registrarId, crID := d.registrarId,
              crDate := d.creationDate, upDate := up,
              exDate := d.expirationDate,
              authInfoPw :=
                match d.authCode with
                | some s => if s.data.isEmpty then "REDACTED" else s
                | none => "REDACTED" }

/-- Extract the disclosed authInfo passphrase of an info outcome. -/
def infoAuthPw : InfoOutcome → Option String
  | .err _ => none
  | .ok d => some d.authInfoPw

/- ------------------------------------------------------------------ -/
/- XML elements, ElementTree-style (tags are `{namespace}local`).      -/
/- ------------------------------------------------------------------ -/

mutual
/-- An ElementTree element: namespaced tag, attributes, text, children. -/
inductive Xml where
  | elem (tag : String) (attrs : List (String × String))
         (text : Option String) (children : XmlList)
  deriving DecidableEq
/-- Children of an element (a mutual list so that recursion over the tree
stays structural). -/
inductive XmlList where
  | nil
  | cons (x : Xml) (xs : XmlList)
  deriving DecidableEq
end

def Xml.tag : Xml → String
  | .elem t _ _ _ => t

def Xml.children : Xml → XmlList
  | .elem _ _ _ c => c

/-- `element.text` (None for an empty element). -/
def Xml.textOf : Xml → Option String
  | .elem _ _ t _ => t

/-- `element.get(key, default)`. -/
def Xml.attr (x : Xml) (key dflt : String) : String :=
  match x with
  | .elem _ attrs _ _ =>
    match attrs.find? (fun p => p.1 == key) with
    | some p => p.2
    | none => dflt

/-- `tag.endswith(suffix)` (executable, unlike `String.endsWith`, whose
position recursion the kernel cannot reduce). -/
def strEndsWith (s suffix : String) : Bool :=
  suffix.data.isSuffixOf s.data

mutual
/-- `element.find('.//{t}')`: the first matching element among the strict
descendants of `x`, in document (pre-)order — the element itself is never
considered, exactly as in ElementTree. -/
def findDesc (t : String) (x : Xml) : Option Xml :=
  match x with
  | .elem _ _ _ cs => findDescList t cs

def findDescList (t : String) : XmlList → Option Xml
  | .nil => none
  | .cons c cs =>
    if c.tag == t then some c
    else
      match findDesc t c with
      | some r => some r
      | none => findDescList t cs
end

/- ------------------------------------------------------------------ -/
/- domain:transfer (epp_domain_commands.handle_domain_transfer 438-539)-/
/- ------------------------------------------------------------------ -/

/-- `SELECT ... FROM transfers WHERE domain_id = (...) ORDER BY
request_date DESC LIMIT 1` (ties resolved arbitrarily; the claims only use
it on empty tables). -/
def latestTransfer (st : Store) (domainName : String) : Option TransferRow :=
  (st.transfers.filter (fun t => t.domainName == domainName)).foldl
    (fun acc t =>
      match acc with
      | none => some t
      | some b => if b.requestDate < t.requestDate then some t else some b)
    none

/-- `handle_domain_transfer`, taking the element the dispatcher passes
(the `<transfer>` child of `<command>` in the epp namespace).  Note the op
extraction of lines 455-456: `element.find('.//{epp}transfer')` searches
only strict descendants, so on the element the server actually passes it
finds nothing and `op` falls back to `'query'` — the `op` attribute carried
by the element itself is never read. -/
def handle_domain_transfer (st : Store) (sess : Session) (now : Nat)
    (e : Xml) : Store × EppResult :=
  match findDesc "\x7burn:ietf:params:xml:ns:domain-1.0\x7dname" e with
  | none => (st, ⟨2003, "Required parameter missing"⟩)
  | some nameElem =>
    match nameElem.textOf with
    | none => (st, ⟨2400, "Command failed"⟩)
    | some rawName =>
      let domainName := strLower rawName
      let auth : Option String :=
        (findDesc "\x7burn:ietf:params:xml:ns:domain-1.0\x7dpw" e).bind Xml.textOf
      let op :=
        match findDesc "\x7burn:ietf:params:xml:ns:epp-1.0\x7dtransfer" e with
        | some t => t.attr "op" "query"
        | none => "query"
      if op == "query" then
        match latestTransfer st domainName with
        | none => (st, ⟨2303, "No transfer found"⟩)
        | some _ => (st, ⟨1000, "Command completed successfully"⟩)
      else if op == "request" then
        match auth with
        | none => (st, ⟨2003, "Auth code required"⟩)
        | some authCode =>
          if authCode.data.isEmpty then (st, ⟨2003, "Auth code required"⟩)
          else
            match lookupDomain st domainName with
            | none => (st, ⟨2303, "Object does not exist"⟩)
            | some d =>
              if !(d.authCode == some authCode) then
                (st, ⟨2202, "Invalid authorization information"⟩)
              else
                ({ st with transfers := st.transfers ++
                     [⟨domainName, d.registrarId, sess.clID, "pending",
                       some authCode, now⟩] },
                 ⟨1001, "Command completed successfully; action pending"⟩)
      else (st, ⟨2102, "Unimplemented option"⟩)

/-- The `<transfer op="request">` element exactly as the asyncio server
passes it to the handler: the epp-namespace transfer element carrying the
`op` attribute, with the domain payload (name and authInfo/pw) beneath. -/
def transferRequestElem : Xml :=
  .elem "\x7burn:ietf:params:xml:ns:epp-1.0\x7dtransfer" [("op", "request")] none
    (.cons (.elem "\x7burn:ietf:params:xml:ns:domain-1.0\x7dtransfer" [] none
      (.cons (.elem "\x7burn:ietf:params:xml:ns:domain-1.0\x7dname" []
                (some "example.test") .nil)
      (.cons (.elem "\x7burn:ietf:params:xml:ns:domain-1.0\x7dauthInfo" [] none
        (.cons (.elem "\x7burn:ietf:params:xml:ns:domain-1.0\x7dpw" []
                  (some "pw1") .nil) .nil)) .nil))) .nil)

/-- A contrived element whose strict descendants do contain an epp
`<transfer op="request">`, forcing the request branch. -/
def nestedTransferRequestElem : Xml :=
  .elem "\x7burn:ietf:params:xml:ns:epp-1.0\x7dtransfer" [] none
    (.cons (.elem "\x7burn:ietf:params:xml:ns:domain-1.0\x7dtransfer" [] none
      (.cons (.elem "\x7burn:ietf:params:xml:ns:domain-1.0\x7dname" []
                (some "example.test") .nil)
      (.cons (.elem "\x7burn:ietf:params:xml:ns:domain-1.0\x7dauthInfo" [] none
        (.cons (.elem "\x7burn:ietf:params:xml:ns:domain-1.0\x7dpw" []
                  (some "pw1") .nil) .nil)) .nil)))
    (.cons (.elem "\x7burn:ietf:params:xml:ns:epp-1.0\x7dtransfer"
      [("op", "request")] none .nil) .nil))

/- ------------------------------------------------------------------ -/
/- Command parsing and dispatch (epp_server.parse_epp_command 101-140, -/
/- handle_client 215-351)                                              -/
/- ------------------------------------------------------------------ -/

/-- The object verbs of the dispatcher. -/
inductive Verb where
  | check | info | create | update | delete | renew | transfer
  deriving Repr, DecidableEq

/-- The command record `parse_epp_command` returns (its `'type'` field,
with the verb element where one is attached). -/
inductive Parsed where
  | hello
  | login (e : Xml)
  | logout
  | verb (v : Verb) (e : Xml)
  | unknown
  deriving DecidableEq

/-- The `if/elif` chain over one child of `<command>` (epp_server.py
117-135): first matching tag suffix wins. -/
def classifyChild (c : Xml) : Option Parsed :=
  if strEndsWith c.tag "\x7dlogin" then some (.login c)
  else if strEndsWith c.tag "\x7dlogout" then some .logout
  else if strEndsWith c.tag "\x7dcheck" then some (.verb .check c)
  else if strEndsWith c.tag "\x7dinfo" then some (.verb .info c)
  else if strEndsWith c.tag "\x7dcreate" then some (.verb .create c)
  else if strEndsWith c.tag "\x7dupdate" then some (.verb .update c)
  else if strEndsWith c.tag "\x7ddelete" then some (.verb .delete c)
  else if strEndsWith c.tag "\x7drenew" then some (.verb .renew c)
  else if strEndsWith c.tag "\x7dtransfer" then some (.verb .transfer c)
  else none

/-- `for child in command: ...` — the first child matching any verb wins;
no match at all yields `{'type': 'unknown'}`. -/
def classifyChildren : XmlList → Parsed
  | .nil => .unknown
  | .cons c cs =>
    match classifyChild c with
    | some p => p
    | none => classifyChildren cs

/-- `parse_epp_command` (epp_server.py 101-140): `none` models the paths
that return Python `None` (fewer than 4 octets, or a payload
`ET.fromstring` rejects — `xml` is then `none`); a well-formed document
with no `{epp}command` descendant is reported as `hello`; otherwise the
children of the command element are classified. -/
def parse_epp_command (xml : Option Xml) : Option Parsed :=
  match xml with
  | none => none
  | some root =>
    match findDesc "\x7burn:ietf:params:xml:ns:epp-1.0\x7dcommand" root with
    | none => some Parsed.hello
    | some command => some (classifyChildren command.children)

/-- Object-kind detection of the dispatcher branches. -/
inductive ObjKind where
  | domain | contact | host
  deriving Repr, DecidableEq

/-- `check`/`info`/`create`/`update`/`delete` look for a domain name, then
a contact id, then a host name among the element's descendants
(epp_server.py 248-331). -/
def detectObjAll (e : Xml) : Option ObjKind :=
  if (findDesc "\x7burn:ietf:params:xml:ns:domain-1.0\x7dname" e).isSome then
    some .domain
  else if (findDesc "\x7burn:ietf:params:xml:ns:contact-1.0\x7did" e).isSome then
    some .contact
  else if (findDesc "\x7burn:ietf:params:xml:ns:host-1.0\x7dname" e).isSome then
    some .host
  else none

/-- `renew` and `transfer` recognize only the domain object
(epp_server.py 332-345). -/
def detectObjDomainOnly (e : Xml) : Option ObjKind :=
  if (findDesc "\x7burn:ietf:params:xml:ns:domain-1.0\x7dname" e).isSome then
    some .domain
  else none

/-- The object kind the dispatcher resolves for a verb element. -/
def dispatchObject (v : Verb) (e : Xml) : Option ObjKind :=
  match v with
  | .renew => detectObjDomainOnly e
  | .transfer => detectObjDomainOnly e
  | _ => detectObjAll e

/-- What one iteration of the `handle_client` loop does with a parsed
frame.  `crash` is an uncaught exception inside the loop: control jumps to
the outer `except`/`finally` (epp_server.py 353-360), which closes the
connection without writing any response. -/
inductive StepOutcome where
  | syntaxError2001
  | greetingSent
  | loginHandled
  | logoutClosed1500
  | dispatched (v : Verb) (o : ObjKind)
  | unimplementedObject2101
  | unimplementedCommand2101
  | crash
  deriving Repr, DecidableEq

/-- One iteration of the `handle_client` command loop (epp_server.py
230-351), up to the object handlers (`dispatched` means the handler was
invoked with the session record).  `hasSession` is `session_id in
self.sessions`, i.e. whether login has happened: every object-command
branch evaluates `self.sessions[session_id]`, which raises `KeyError` when
absent — `crash`. -/
def serverStep (hasSession : Bool) (pc : Option Parsed) : StepOutcome :=
  match pc with
  | none => .syntaxError2001
  | some .hello => .greetingSent
  | some (.login _) => .loginHandled
  | some .logout => .logoutClosed1500
  | some (.verb v e) =>
    match dispatchObject v e with
    | none => .unimplementedObject2101
    | some o => if hasSession then .dispatched v o else .crash
  | some .unknown => .unimplementedCommand2101

/-- Whether the session keeps reading frames after the outcome. -/
def stepKeepsOpen : StepOutcome → Bool
  | .logoutClosed1500 => false
  | .crash => false
  | _ => true

/-- The result code written for the outcome, when the loop itself
determines one (`none` for the greeting, for handler-determined codes, and
for `crash`, which writes nothing at all). -/
def stepResultCode : StepOutcome → Option Nat
  | .syntaxError2001 => some 2001
  | .logoutClosed1500 => some 1500
  | .unimplementedObject2101 => some 2101
  | .unimplementedCommand2101 => some 2101
  | _ => none

/-- The full `<epp><command><check><domain:check><domain:name>` document of
a domain:check command. -/
def domainCheckRoot : Xml :=
  .elem "\x7burn:ietf:params:xml:ns:epp-1.0\x7depp" [] none
    (.cons (.elem "\x7burn:ietf:params:xml:ns:epp-1.0\x7dcommand" [] none
      (.cons (.elem "\x7burn:ietf:params:xml:ns:epp-1.0\x7dcheck" [] none
        (.cons (.elem "\x7burn:ietf:params:xml:ns:domain-1.0\x7dcheck" [] none
          (.cons (.elem "\x7burn:ietf:params:xml:ns:domain-1.0\x7dname" []
                    (some "example.test") .nil) .nil)) .nil)) .nil)) .nil)

/-- The verb element the parser attaches for `domainCheckRoot` (the
`{epp}check` child of `<command>`). -/
def domainCheckVerbElem : Xml :=
  .elem "\x7burn:ietf:params:xml:ns:epp-1.0\x7dcheck" [] none
    (.cons (.elem "\x7burn:ietf:params:xml:ns:domain-1.0\x7dcheck" [] none
      (.cons (.elem "\x7burn:ietf:params:xml:ns:domain-1.0\x7dname" []
                (some "example.test") .nil) .nil)) .nil)

/-- The bare well-formed document `<epp/>` of the claim's scenario. -/
def bareEppRoot : Xml :=
  .elem "epp" [] none .nil

/-- A `<command>` document whose verb element matches no recognized verb. -/
def unknownVerbRoot : Xml :=
  .elem "\x7burn:ietf:params:xml:ns:epp-1.0\x7depp" [] none
    (.cons (.elem "\x7burn:ietf:params:xml:ns:epp-1.0\x7dcommand" [] none
      (.cons (.elem "\x7burn:ietf:params:xml:ns:epp-1.0\x7dpoll" [] none .nil)
        .nil)) .nil)

/-- The command element of `unknownVerbRoot`. -/
def unknownVerbCommandElem : Xml :=
  .elem "\x7burn:ietf:params:xml:ns:epp-1.0\x7dcommand" [] none
    (.cons (.elem "\x7burn:ietf:params:xml:ns:epp-1.0\x7dpoll" [] none .nil) .nil)

/- ------------------------------------------------------------------ -/
/- Theorems                                                            -/
/- ------------------------------------------------------------------ -/

theorem fromBE32_toBE32 (n : Nat) (rest : List Nat) (h : n < 2 ^ 32) :
    fromBE32 (toBE32 n ++ rest) = some (n, rest) := by
  simp only [toBE32, fromBE32, List.cons_append, List.nil_append]
  congr 1
  congr 1
  omega

theorem encodeFrame_length (payload : List Nat) :
    (encodeFrame payload).length = 4 + payload.length := by
  simp [encodeFrame, toBE32]
  omega

/-- C6.  Frame round-trip: for every payload of byte length `L`, the claim
states the encoder emits exactly `4 + L` octets whose first four octets are
the big-endian encoding of `L + 4` followed by the payload, and that the
decoder recovers the payload from such a frame.  Counterexample below: the
empty payload is encoded fine but the reader treats the resulting empty body
read as end-of-file and closes the session, so `P = []` is not recovered. -/
theorem c6_empty_payload_not_recovered :
    decodeFrame (encodeFrame []) = none ∧ (some ([] : List Nat)) ≠ none := by
  constructor
  · rfl
  · simp

/-- C6 (amended).  For every nonempty payload `P` of byte length `L` with
`L + 4 < 2^32` (the 4-octet header width; Python's `to_bytes` raises above
it), the encoder emits exactly `4 + L` octets, their first four octets are
the big-endian encoding of `L + 4`, the remainder is `P` unchanged, and the
frame reader recovers exactly `P`. -/
theorem c6_frame_roundtrip (payload : List Nat)
    (hne : payload ≠ []) (hlen : payload.length + 4 < 2 ^ 32) :
    (encodeFrame payload).length = 4 + payload.length ∧
    (encodeFrame payload).take 4 = toBE32 (payload.length + 4) ∧
    (encodeFrame payload).drop 4 = payload ∧
    decodeFrame (encodeFrame payload) = some payload := by
  refine ⟨encodeFrame_length payload, ?_, ?_, ?_⟩
  · simp [encodeFrame, toBE32]
  · simp [encodeFrame, toBE32]
  · simp only [decodeFrame, encodeFrame, fromBE32_toBE32 _ _ hlen]
    simp [List.take_length, hne]

/-- C6 witness: the round-trip at the concrete payload `<epp/>` (its six
UTF-8 octets). -/
theorem c6_frame_roundtrip_witness :
    ([60, 101, 112, 112, 47, 62] : List Nat) ≠ [] ∧
    ([60, 101, 112, 112, 47, 62] : List Nat).length + 4 < 2 ^ 32 ∧
    decodeFrame (encodeFrame [60, 101, 112, 112, 47, 62]) =
      some [60, 101, 112, 112, 47, 62] :=
  ⟨by decide, by decide,
    (c6_frame_roundtrip [60, 101, 112, 112, 47, 62] (by decide) (by decide)).2.2.2⟩

theorem addNameserverLink_domains (dname : String) (st : Store) (ns : String) :
    (addNameserverLink dname st ns).domains = st.domains := by
  unfold addNameserverLink
  split <;> rfl

theorem foldl_addNameserverLink_domains (dname : String) (st : Store)
    (l : List String) :
    (l.foldl (addNameserverLink dname) st).domains = st.domains := by
  induction l generalizing st with
  | nil => rfl
  | cons ns rest ih => rw [List.foldl_cons, ih, addNameserverLink_domains]

theorem find?_append_of_none {α : Type} (p : α → Bool) (l₁ l₂ : List α)
    (h : l₁.find? p = none) : (l₁ ++ l₂).find? p = l₂.find? p := by
  induction l₁ with
  | nil => rfl
  | cons a t ih =>
    cases hp : p a
    · rw [List.find?_cons_of_neg _ (by simp [hp])] at h
      rw [List.cons_append, List.find?_cons_of_neg _ (by simp [hp])]
      exact ih h
    · rw [List.find?_cons_of_pos _ hp] at h
      exact absurd h (by simp)

/-- Shared shape of a successful `handle_domain_create`: the response is
1000 and the stored row has exactly the fields the INSERT writes. -/
theorem handle_domain_create_success (st : Store) (sess : Session) (now : Nat)
    (genAuth : String) (req : DomainCreateReq) (n : String)
    (hname : req.name = some n)
    (hfree : lookupDomain st (strLower n) = none) :
    (handle_domain_create st sess now genAuth req).2 =
      ⟨1000, "Command completed successfully"⟩ ∧
    lookupDomain (handle_domain_create st sess now genAuth req).1 (strLower n) =
      some { name := (strLower n), registrarId := sess.clID.getD "unknown",
             creationDate := now,
             expirationDate := now + (req.period.getD 1) * 365 * 86400,
             lastUpdate := none, status := ["ok"],
             authCode := some (req.authInfo.getD genAuth),
             registrantId := some (req.registrant.getD "DEFAULT"),
             adminContactId := none, techContactId := none,
             billingContactId := none } := by
  simp only [handle_domain_create, hname, hfree]
  refine ⟨by trivial, ?_⟩
  simp only [lookupDomain, foldl_addNameserverLink_domains]
  rw [find?_append_of_none _ _ _ hfree]
  simp [List.find?]

/-- C5.  domain:create fails with 2302 when the lowercased name already
exists; on success the stored status set is `{ok}`, an authorization
passphrase is present (the supplied one, or the generated one when none is
supplied), and the stored expiration equals the creation timestamp plus
`period * 365` days exactly (period defaulting to 1). -/
theorem c5_domain_create_spec (st : Store) (sess : Session) (now : Nat)
    (genAuth : String) (req : DomainCreateReq) (n : String)
    (hname : req.name = some n) :
    ((lookupDomain st (strLower n)).isSome →
      handle_domain_create st sess now genAuth req =
        (st, ⟨2302, "Object exists"⟩)) ∧
    (lookupDomain st (strLower n) = none →
      (handle_domain_create st sess now genAuth req).2 =
        ⟨1000, "Command completed successfully"⟩ ∧
      ∃ d, lookupDomain (handle_domain_create st sess now genAuth req).1
              (strLower n) = some d ∧
        d.status = ["ok"] ∧
        d.authCode = some (req.authInfo.getD genAuth) ∧
        d.creationDate = now ∧
        d.expirationDate = now + (req.period.getD 1) * 365 * 86400) := by
  constructor
  · intro hex
    match hlk : lookupDomain st (strLower n) with
    | none => rw [hlk] at hex; simp at hex
    | some d => simp only [handle_domain_create, hname, hlk]
  · intro hfree
    obtain ⟨hres, hrow⟩ :=
      handle_domain_create_success st sess now genAuth req n hname hfree
    exact ⟨hres, _, hrow, rfl, rfl, rfl, rfl⟩

/-- C5 witness: creating `Example.TEST` in the empty store with no supplied
period or passphrase stores status `{ok}`, the generated passphrase and a
one-year expiration; creating it again would yield 2302 (the first conjunct
is vacuous on the empty store). -/
theorem c5_domain_create_spec_witness :
    ((lookupDomain ⟨[], [], [], [], [], []⟩ (strLower "Example.TEST")).isSome →
      handle_domain_create ⟨[], [], [], [], [], []⟩ ⟨some "RG1"⟩ 1000 "gen-pw"
          ⟨some "Example.TEST", none, none, none, []⟩ =
        (⟨[], [], [], [], [], []⟩, ⟨2302, "Object exists"⟩)) ∧
    (lookupDomain ⟨[], [], [], [], [], []⟩ (strLower "Example.TEST") = none →
      (handle_domain_create ⟨[], [], [], [], [], []⟩ ⟨some "RG1"⟩ 1000 "gen-pw"
          ⟨some "Example.TEST", none, none, none, []⟩).2 =
        ⟨1000, "Command completed successfully"⟩ ∧
      ∃ d, lookupDomain (handle_domain_create ⟨[], [], [], [], [], []⟩
              ⟨some "RG1"⟩ 1000 "gen-pw"
              ⟨some "Example.TEST", none, none, none, []⟩).1
              (strLower "Example.TEST") = some d ∧
        d.status = ["ok"] ∧
        d.authCode = some ((none : Option String).getD "gen-pw") ∧
        d.creationDate = 1000 ∧
        d.expirationDate = 1000 + ((none : Option Nat).getD 1) * 365 * 86400) :=
  c5_domain_create_spec ⟨[], [], [], [], [], []⟩ ⟨some "RG1"⟩ 1000 "gen-pw"
    ⟨some "Example.TEST", none, none, none, []⟩ "Example.TEST" rfl

/-- C10.  Implicit claim: domain:create never checks that the registrant
handle exists as a contact; the supplied registrant (or the literal
`DEFAULT` when the element is absent) is stored as-is, so a successfully
created domain may reference a contact handle that is not in the store.  The
hypothesis `hghost` states that the stored handle does NOT exist among the
contacts, and creation succeeds regardless. -/
theorem c10_create_registrant_unchecked (st : Store) (sess : Session)
    (now : Nat) (genAuth : String) (req : DomainCreateReq) (n : String)
    (hname : req.name = some n)
    (hfree : lookupDomain st (strLower n) = none)
    (hghost : lookupContact st (req.registrant.getD "DEFAULT") = none) :
    (handle_domain_create st sess now genAuth req).2.code = 1000 ∧
    ∃ d, lookupDomain (handle_domain_create st sess now genAuth req).1
            (strLower n) = some d ∧
      d.registrantId = some (req.registrant.getD "DEFAULT") := by
  obtain ⟨hres, hrow⟩ :=
    handle_domain_create_success st sess now genAuth req n hname hfree
  exact ⟨by rw [hres], _, hrow, rfl⟩

/-- C10 witness: a domain created with no registrant element in a store
whose only contact is `C1` succeeds and stores the dangling handle
`DEFAULT`. -/
theorem c10_create_registrant_unchecked_witness :
    (handle_domain_create
        ⟨[], [⟨"C1", "RG1", "John Doe", none, some "123 Main St", none, none,
               "London", none, "SW1A 1AA", "GB", "+44.20", none,
               "j@example.com", 5, ["ok"]⟩], [], [], [], []⟩
        ⟨some "RG1"⟩ 77 "gen-pw"
        ⟨some "d.test", none, none, none, []⟩).2.code = 1000 ∧
    ∃ d, lookupDomain (handle_domain_create
        ⟨[], [⟨"C1", "RG1", "John Doe", none, some "123 Main St", none, none,
               "London", none, "SW1A 1AA", "GB", "+44.20", none,
               "j@example.com", 5, ["ok"]⟩], [], [], [], []⟩
        ⟨some "RG1"⟩ 77 "gen-pw"
        ⟨some "d.test", none, none, none, []⟩).1 (strLower "d.test") = some d ∧
      d.registrantId = some ((none : Option String).getD "DEFAULT") :=
  c10_create_registrant_unchecked _ _ 77 "gen-pw" _ "d.test" rfl
    (by decide) (by decide)

set_option maxRecDepth 8192 in
/-- C1 (code bug).  The stored domain `example.test` expires at epoch second
1000000 (1970-01-12); yet for EVERY supplied `curExpDate` string — matching
or not — the sponsor's renew command succeeds with 1000 and the stored
expiration becomes the old one plus 365 days.  The optimistic-concurrency
comparison (and the 2306 failure) demanded by the claim does not exist in
the code. -/
theorem c1_renew_ignores_curExpDate (curExp : String) :
    (handle_domain_renew
        ⟨[⟨"example.test", "RG1", 0, 1000000, none, ["ok"], some "pw1",
           some "C1", none, none, none⟩], [], [], [], [], []⟩
        ⟨some "RG1"⟩ 555
        ⟨some "example.test", some curExp, none⟩).2 =
      ⟨1000, "Command completed successfully"⟩ ∧
    (lookupDomain (handle_domain_renew
        ⟨[⟨"example.test", "RG1", 0, 1000000, none, ["ok"], some "pw1",
           some "C1", none, none, none⟩], [], [], [], [], []⟩
        ⟨some "RG1"⟩ 555
        ⟨some "example.test", some curExp, none⟩).1
        "example.test").map DomainRow.expirationDate =
      some (1000000 + 365 * 86400) := by
  constructor <;> rfl

/-- C7.  An existing contact referenced by at least one domain in any role
column cannot be deleted: the reply is 2305, its message cites the number of
referencing domains, and the store (in particular the contact row) is left
unchanged. -/
theorem c7_contact_delete_referenced (st : Store) (contactId : String)
    (hex : (lookupContact st contactId).isSome)
    (href : 0 < countReferencingDomains st contactId) :
    handle_contact_delete st (some contactId) =
      (st, ⟨2305, "Object association prohibits operation (" ++
              Nat.repr (countReferencingDomains st contactId) ++
              " domains reference this contact)"⟩) := by
  match hlk : lookupContact st contactId with
  | none => rw [hlk] at hex; simp at hex
  | some c =>
    simp only [handle_contact_delete, hlk]
    rw [if_pos href]

/-- C7 witness: contact `C1` is the registrant of `d.test`; deleting it
yields 2305 with the count `1` in the message and leaves the store as it
was. -/
theorem c7_contact_delete_referenced_witness :
    handle_contact_delete
      ⟨[⟨"d.test", "RG1", 0, 100, none, ["ok"], some "pw1", some "C1",
         none, none, none⟩],
       [⟨"C1", "RG1", "John Doe", none, some "123 Main St", none, none,
         "London", none, "SW1A 1AA", "GB", "+44.20", none, "j@example.com",
         5, ["ok"]⟩], [], [], [], []⟩
      (some "C1") =
    (⟨[⟨"d.test", "RG1", 0, 100, none, ["ok"], some "pw1", some "C1",
        none, none, none⟩],
      [⟨"C1", "RG1", "John Doe", none, some "123 Main St", none, none,
        "London", none, "SW1A 1AA", "GB", "+44.20", none, "j@example.com",
        5, ["ok"]⟩], [], [], [], []⟩,
     ⟨2305,
      "Object association prohibits operation (1 domains reference this contact)"⟩) :=
  (c7_contact_delete_referenced _ "C1" (by decide) (by decide)).trans (by decide)

theorem isLowerAlnum_eq (c : Char) :
    isLowerAlnum c = (isLowerAlnumHyphen c && !(c == '-')) := by
  cases hc : c == '-'
  · simp [isLowerAlnumHyphen, hc]
  · have hce : c = '-' := (beq_iff_eq (a := c) (b := '-')).mp hc
    subst hce
    decide

theorem labelCoreOk_eq_labelSpecOk (cs : List Char) :
    labelCoreOk cs = labelSpecOk cs := by
  match cs with
  | [] => decide
  | c :: rest =>
    rcases List.eq_nil_or_concat rest with rfl | ⟨mid, lastc, rfl⟩
    · rw [labelCoreOk, labelSpecOk]
      have hc1 : ([c] : List Char).getLast? = some c :=
        show (([] : List Char) ++ [c]).getLast? = some c from List.getLast?_concat _
      simp only [List.getLast?_nil, List.head?_cons, hc1,
        List.all_cons, List.all_nil, List.length_cons, List.length_nil]
      rw [isLowerAlnum_eq c]
      cases hx : isLowerAlnumHyphen c <;> cases hy : (c == '-') <;>
        simp [hx, hy]
    · simp only [List.concat_eq_append]
      rw [labelCoreOk, labelSpecOk]
      have hlast : (c :: (mid ++ [lastc])).getLast? = some lastc := by
        rw [← List.cons_append]
        exact List.getLast?_concat _
      rw [List.getLast?_concat, hlast, List.dropLast_concat]
      simp only [List.head?_cons, List.all_cons, List.all_append, List.all_nil,
        List.length_cons, List.length_append, List.length_nil]
      have h1 : (decide (1 ≤ mid.length + 1 + 1)) = true := by
        rw [decide_eq_true_eq]; omega
      have hlen : (decide (mid.length + 1 + 1 ≤ 63)) =
          (decide (mid.length + 1 ≤ 62)) := by
        rw [decide_eq_decide]; omega
      rw [isLowerAlnum_eq c, isLowerAlnum_eq lastc, h1, hlen]
      cases hx : isLowerAlnumHyphen c <;> cases hy : (c == '-') <;>
        cases hz : isLowerAlnumHyphen lastc <;> cases hw : (lastc == '-') <;>
        cases hv : mid.all isLowerAlnumHyphen <;>
        cases hu : decide (mid.length + 1 ≤ 62) <;>
        simp [hx, hy, hz, hw, hv, hu]

theorem labelOk_eq_labelSpecNL (cs : List Char) :
    labelOk cs = labelSpecNL cs := by
  rw [labelOk, labelSpecNL, labelCoreOk_eq_labelSpecOk]
  cases h : cs.getLast? with
  | none => rfl
  | some c => rw [labelCoreOk_eq_labelSpecOk]

theorem all_labelOk_eq_labelSpecNL (ls : List (List Char)) :
    ls.all labelOk = ls.all labelSpecNL := by
  rw [show labelOk = labelSpecNL from funext labelOk_eq_labelSpecNL]

/-- The code's validator, characterized declaratively: nonempty, at most
255 characters, and of the amended claim form. -/
theorem validate_hostname_eq_form (hostname : String) :
    validate_hostname hostname =
      (!hostname.data.isEmpty && decide (hostname.length ≤ 255) &&
        hostnameFormAmended hostname) := by
  rw [validate_hostname, hostnameFormAmended]
  by_cases hA : hostname.data.isEmpty = true
  · rw [if_pos (by simp [hA])]
    simp [hA]
  · replace hA : hostname.data.isEmpty = false := by
      cases h : hostname.data.isEmpty
      · rfl
      · exact absurd h hA
    by_cases hB : hostname.data.length ≤ 255
    · have hB' : hostname.length ≤ 255 := hB
      have hb : decide (hostname.data.length > 255) = false :=
        decide_eq_false (by omega)
      have hb2 : decide (hostname.length > 255) = false := hb
      rw [if_neg (by simp [hA, hb, hb2])]
      by_cases hC : (splitOnDot (strLower hostname).data).length < 2
      · rw [if_pos hC]
        have h2 : decide (2 ≤ (splitOnDot (strLower hostname).data).length) =
            false := decide_eq_false (by omega)
        simp [hA, hB', h2]
      · rw [if_neg hC]
        have h2 : decide (2 ≤ (splitOnDot (strLower hostname).data).length) =
            true := decide_eq_true (by omega)
        simp [hA, hB', h2, all_labelOk_eq_labelSpecNL]
    · have hb : decide (hostname.data.length > 255) = true :=
        decide_eq_true (by omega)
      have hb2 : 255 < hostname.length := Nat.not_le.mp hB
      rw [if_pos (by simp [hb, hb2])]
      have h255 : ¬ hostname.length ≤ 255 := hB
      simp [h255]

set_option maxRecDepth 100000 in
/-- C8 counterexample.  Two concrete hostnames refute the claim as stated:
`aa.aa.….aa` (86 labels, 257 characters) is of the claimed form, yet the
code replies `avail=0, "Invalid hostname format"` because the validator also
bounds the total length by 255; and `ab.cd\n` is NOT of the claimed form
(its last label ends in a newline), yet the code accepts it (Python's `$`
matches before a trailing newline) and replies with the existence check
`avail=1`. -/
theorem c8_hostname_counterexample :
    hostnameFormClaim (String.mk (List.intercalate ['.']
        (List.replicate 86 ['a', 'a']))) = true ∧
    hostCheckOne [] (String.mk (List.intercalate ['.']
        (List.replicate 86 ['a', 'a']))) =
      ⟨String.mk (List.intercalate ['.'] (List.replicate 86 ['a', 'a'])),
       "0", some "Invalid hostname format"⟩ ∧
    hostnameFormClaim "ab.cd\x0a" = false ∧
    hostCheckOne [] "ab.cd\x0a" = ⟨"ab.cd\x0a", "1", none⟩ := by
  refine ⟨by decide, by decide, by decide, by decide⟩

/-- C8 (amended).  host:check maps every submitted hostname to a per-name
result; the result is `avail=0, reason="Invalid hostname format"` exactly
when the name fails the claimed RFC 952/1123 form *amended by*: the total
length must also be nonzero and at most 255 characters, and any label may
additionally carry one trailing newline (Python's `$` artifact); otherwise
the result is the existence check on the lowercased name (`avail=0,
reason="In use"` when present, `avail=1` otherwise). -/
theorem c8_host_check_amended (hostsTable : List String)
    (names : List String) (name : String) :
    handle_host_check hostsTable names = names.map (hostCheckOne hostsTable) ∧
    hostCheckOne hostsTable name =
      (if !name.data.isEmpty && decide (name.length ≤ 255) &&
          hostnameFormAmended name then
         (if hostsTable.contains (strLower name) then
            ⟨name, "0", some "In use"⟩
          else ⟨name, "1", none⟩)
       else ⟨name, "0", some "Invalid hostname format"⟩) := by
  refine ⟨rfl, ?_⟩
  rw [hostCheckOne, validate_hostname_eq_form]
  cases h : (!name.data.isEmpty && decide (name.length ≤ 255) &&
      hostnameFormAmended name)
  · simp [h]
  · simp [h]

/-- C3 (code bug).  `example.test` is sponsored by `RG1`; the requester is
`RG2`.  Two stores that differ only in the stored authorization passphrase
(`secretA` vs `secretB`) give the non-sponsor different domain:info
responses, and the response discloses the stored passphrase verbatim: the
handler never compares the requester with the sponsoring client. -/
theorem c3_authinfo_disclosed_to_nonsponsor :
    infoAuthPw (handle_domain_info
      ⟨[⟨"example.test", "RG1", 0, 1000000, some 7, ["ok"], some "secretA",
         some "C1", none, none, none⟩], [], [], [], [], []⟩
      ⟨some "RG2"⟩ (some "example.test")) = some "secretA" ∧
    handle_domain_info
      ⟨[⟨"example.test", "RG1", 0, 1000000, some 7, ["ok"], some "secretA",
         some "C1", none, none, none⟩], [], [], [], [], []⟩
      ⟨some "RG2"⟩ (some "example.test") ≠
    handle_domain_info
      ⟨[⟨"example.test", "RG1", 0, 1000000, some 7, ["ok"], some "secretB",
         some "C1", none, none, none⟩], [], [], [], [], []⟩
      ⟨some "RG2"⟩ (some "example.test") := by
  refine ⟨by decide, by decide⟩

/-- C2 (code bug).  The store holds `example.test`, sponsored by `RG1` with
passphrase `pw1` and no transfer records.  Client `RG2` (a different
client) submits `transfer op=request` with the correct passphrase — yet the
element does carry `op="request"` (first conjunct), the handler computes
`op='query'` from a descendant search that cannot see the element itself,
runs the query branch and returns 2303 "No transfer found": no passphrase
check, no pending record, no 1001. -/
theorem c2_transfer_request_treated_as_query :
    Xml.attr transferRequestElem "op" "query" = "request" ∧
    handle_domain_transfer
      ⟨[⟨"example.test", "RG1", 0, 1000000, some 7, ["ok"], some "pw1",
         some "C1", none, none, none⟩], [], [], [], [], []⟩
      ⟨some "RG2"⟩ 999 transferRequestElem =
    (⟨[⟨"example.test", "RG1", 0, 1000000, some 7, ["ok"], some "pw1",
        some "C1", none, none, none⟩], [], [], [], [], []⟩,
     ⟨2303, "No transfer found"⟩) := by
  refine ⟨by decide, by decide⟩

/-- Even when the request branch is forced (through a nested transfer
element), the current sponsor itself can request a transfer of its own
domain with 1001 and a pending record naming it as both the losing and the
gaining registrar: the handler never requires the requester to differ from
the sponsor. -/
theorem c2_no_sponsor_difference_check :
    handle_domain_transfer
      ⟨[⟨"example.test", "RG1", 0, 1000000, some 7, ["ok"], some "pw1",
         some "C1", none, none, none⟩], [], [], [], [], []⟩
      ⟨some "RG1"⟩ 999 nestedTransferRequestElem =
    (⟨[⟨"example.test", "RG1", 0, 1000000, some 7, ["ok"], some "pw1",
        some "C1", none, none, none⟩], [], [], [],
      [], [⟨"example.test", "RG1", some "RG1", "pending", some "pw1", 999⟩]⟩,
     ⟨1001, "Command completed successfully; action pending"⟩) := by
  decide

/-- C4 (code bug).  In the Greeted state (no session entry), every command
that reaches an object handler branch — check, info, create, update,
delete, renew, transfer with a recognized object payload — crashes on the
`self.sessions[session_id]` lookup: the connection is closed with no
response at all, instead of the claimed 2002 reply with the session
remaining in Greeted. -/
theorem c4_prelogin_object_command_crashes (v : Verb) (e : Xml) (o : ObjKind)
    (hobj : dispatchObject v e = some o) :
    serverStep false (some (.verb v e)) = .crash ∧
    stepKeepsOpen (serverStep false (some (.verb v e))) = false ∧
    stepResultCode (serverStep false (some (.verb v e))) = none := by
  simp only [serverStep, hobj]
  exact ⟨rfl, rfl, rfl⟩

/-- C4 witness: a domain:check sent as the first command after the greeting
parses to the check verb and crashes the connection. -/
theorem c4_prelogin_object_command_crashes_witness :
    parse_epp_command (some domainCheckRoot) =
      some (.verb .check domainCheckVerbElem) ∧
    (serverStep false (some (.verb .check domainCheckVerbElem)) = .crash ∧
     stepKeepsOpen (serverStep false
       (some (.verb .check domainCheckVerbElem))) = false ∧
     stepResultCode (serverStep false
       (some (.verb .check domainCheckVerbElem))) = none) :=
  ⟨by decide,
   c4_prelogin_object_command_crashes .check domainCheckVerbElem .domain
     (by decide)⟩

/-- C9 counterexample.  The well-formed payload `<epp/>` carries no
recognized EPP command, but the server does NOT reply 2001: the parser
reports `hello` for any document with no `<command>` descendant, so the
dispatcher re-emits the greeting (which carries no result code at all);
the session does remain open. -/
theorem c9_bare_epp_gets_greeting :
    parse_epp_command (some bareEppRoot) = some Parsed.hello ∧
    serverStep true (parse_epp_command (some bareEppRoot)) =
      .greetingSent ∧
    stepResultCode .greetingSent ≠ some 2001 ∧
    stepKeepsOpen .greetingSent = true := by
  refine ⟨by decide, by decide, by decide, by decide⟩

/-- C9 (amended).  A frame whose payload is not well-formed XML (or is
shorter than the header) is answered with 2001 and the session stays open;
a well-formed payload with no `<command>` element — such as bare `<epp/>` —
is treated as hello and answered with the greeting; a `<command>` whose
children match no recognized verb is answered with 2101; the session
remains open in every one of these cases. -/
theorem c9_unrecognized_payload_dispatch (b : Bool) (root cmdEl : Xml) :
    (serverStep b (parse_epp_command none) = .syntaxError2001 ∧
     stepResultCode .syntaxError2001 = some 2001 ∧
     stepKeepsOpen .syntaxError2001 = true) ∧
    (findDesc "\x7burn:ietf:params:xml:ns:epp-1.0\x7dcommand" root = none →
      serverStep b (parse_epp_command (some root)) = .greetingSent ∧
      stepKeepsOpen .greetingSent = true) ∧
    (findDesc "\x7burn:ietf:params:xml:ns:epp-1.0\x7dcommand" root = some cmdEl →
      classifyChildren cmdEl.children = .unknown →
      serverStep b (parse_epp_command (some root)) =
        .unimplementedCommand2101 ∧
      stepResultCode .unimplementedCommand2101 = some 2101 ∧
      stepKeepsOpen .unimplementedCommand2101 = true) := by
  refine ⟨⟨rfl, rfl, rfl⟩, ?_, ?_⟩
  · intro h
    simp only [parse_epp_command, h]
    exact ⟨rfl, rfl⟩
  · intro h hc
    simp only [parse_epp_command, h, hc]
    exact ⟨rfl, rfl, rfl⟩

/-- C9 witness: the three cases at concrete inputs — a parse failure, the
bare `<epp/>`, and a `<command><poll/></command>` document. -/
theorem c9_unrecognized_payload_dispatch_witness :
    (serverStep true (parse_epp_command none) = .syntaxError2001) ∧
    (serverStep true (parse_epp_command (some bareEppRoot)) =
      .greetingSent ∧ stepKeepsOpen .greetingSent = true) ∧
    (serverStep true (parse_epp_command (some unknownVerbRoot)) =
      .unimplementedCommand2101 ∧
     stepResultCode .unimplementedCommand2101 = some 2101 ∧
     stepKeepsOpen .unimplementedCommand2101 = true) :=
  ⟨(c9_unrecognized_payload_dispatch true bareEppRoot bareEppRoot).1.1,
   (c9_unrecognized_payload_dispatch true bareEppRoot bareEppRoot).2.1
     (by decide),
   (c9_unrecognized_payload_dispatch true unknownVerbRoot
       unknownVerbCommandElem).2.2 (by decide) (by decide)⟩
